import Mathlib

/-!
Verification of the `rust-bot-template` repository: a shallow embedding in
Lean 4 of the repository's own code (`src/main.rs`, `src/commands/ping.rs`,
`src/commands.rs`) together with theorems about the behaviour of
`parse_prefixes`, `not_using_dotenv`, the `pong` command, the startup
sequence of `main`, and the background shutdown task.

External effects (the process environment, the database connection, the
framework build, the reply-send call, the ctrl+c signal) are modelled as
explicit inputs; panics and propagated errors are modelled with `Except`.
-/

set_option autoImplicit false

namespace BotTemplate

/-- The result of looking up one environment variable, mirroring Rust's
`Result<String, VarError>`: present with a Unicode value, absent
(`VarError::NotPresent`), or present but not valid Unicode
(`VarError::NotUnicode`). -/
inductive EnvVal where
  | absent
  | notUnicode
  | val (s : String)
deriving DecidableEq

/-- The process environment: a lookup from variable name to `EnvVal`. -/
def Env : Type := String → EnvVal

/-- Model of `sqlx::PgPool`: the observable state of the database connection
pool (whether it is open, and how many queries have been executed through
it). The repository's own code never runs a query, so `queriesExecuted`
only ever changes if some command were to issue one. -/
structure PgPool where
  isOpen : Bool
  queriesExecuted : Nat
deriving DecidableEq

/-- `struct Data { pub db: PgPool }` from `main.rs` — the data shared across
commands and events. -/
structure Data where
  db : PgPool
deriving DecidableEq

/-- Model of `poise::Prefix` as used by `parse_prefixes`: the additional
prefixes are built with `Prefix::Literal`. -/
inductive PrefixLit where
  | Literal (s : String)
deriving DecidableEq

/-- Rust's `char::to_ascii_lowercase`: maps `A`–`Z` to `a`–`z` and leaves
every other character unchanged. -/
def toAsciiLowerChar (c : Char) : Char :=
  if 'A' ≤ c ∧ c ≤ 'Z' then Char.ofNat (c.toNat + 32) else c

/-- Rust's `str::to_ascii_lowercase`: ASCII-lowercase every character. -/
def to_ascii_lowercase (s : String) : String :=
  String.mk (s.data.map toAsciiLowerChar)

/-- Rust's `str::split(sep)` for a single separator character, on the
character list of the string: yields the (possibly empty) chunks between
occurrences of `sep`, one more chunk than there are separators.  The `[]`
branch of the inner match is unreachable (`splitSep_ne_nil`), and is given
an arbitrary value. -/
def splitSep (sep : Char) : List Char → List (List Char)
  | [] => [[]]
  | c :: cs =>
    match splitSep sep cs with
    | [] => [[c]]
    | t :: ts => if c = sep then [] :: t :: ts else (c :: t) :: ts

/-- Unfolding equation for `splitSep` on a non-empty input, once the result
on the tail is known. -/
theorem splitSep_cons (sep c : Char) (cs t : List Char) (ts : List (List Char))
    (h : splitSep sep cs = t :: ts) :
    splitSep sep (c :: cs) = if c = sep then [] :: t :: ts else (c :: t) :: ts := by
  unfold splitSep
  rw [h]

/-- `splitSep` never returns the empty list: splitting always yields at
least one (possibly empty) chunk. -/
theorem splitSep_ne_nil (sep : Char) (l : List Char) : splitSep sep l ≠ [] := by
  induction l with
  | nil => simp [splitSep]
  | cons c cs ih =>
    unfold splitSep
    cases h : splitSep sep cs with
    | nil => simp
    | cons t ts =>
      by_cases hc : c = sep <;> simp [hc]

/-- Re-joining the chunks of `splitSep` with the separator recovers the
original list: `splitSep` loses nothing and splits exactly at `sep`. -/
theorem splitSep_intercalate (sep : Char) (l : List Char) :
    List.intercalate [sep] (splitSep sep l) = l := by
  induction l with
  | nil => simp [splitSep, List.intercalate]
  | cons c cs ih =>
    unfold splitSep
    cases h : splitSep sep cs with
    | nil => exact absurd h (splitSep_ne_nil sep cs)
    | cons t ts =>
      rw [h] at ih
      by_cases hc : c = sep
      · subst hc
        simp only [if_pos rfl]
        simpa [List.intercalate, List.intersperse] using ih
      · simp only [if_neg hc]
        cases ts with
        | nil => simpa [List.intercalate, List.intersperse] using ih
        | cons t2 ts2 => simpa [List.intercalate, List.intersperse] using ih

/-- No chunk produced by `splitSep` contains the separator. -/
theorem splitSep_not_mem (sep : Char) (l : List Char) :
    ∀ t ∈ splitSep sep l, sep ∉ t := by
  induction l with
  | nil => intro t ht; simp [splitSep] at ht; simp [ht]
  | cons c cs ih =>
    intro t ht
    cases h : splitSep sep cs with
    | nil => exact absurd h (splitSep_ne_nil sep cs)
    | cons t1 ts =>
      rw [splitSep_cons sep c cs t1 ts h] at ht
      by_cases hc : c = sep
      · rw [if_pos hc] at ht
        rcases List.mem_cons.mp ht with h1 | h2
        · simp [h1]
        · exact ih t (h ▸ h2)
      · rw [if_neg hc] at ht
        rcases List.mem_cons.mp ht with h1 | h2
        · subst h1
          intro hmem
          rcases List.mem_cons.mp hmem with h3 | h4
          · exact hc h3.symm
          · exact ih t1 (h ▸ List.mem_cons_self t1 ts) h4
        · exact ih t (h ▸ List.mem_cons.mpr (Or.inr h2))

/-- The space-split of a string, as a list of strings: the token list that
`parse_prefixes` consumes. -/
def spaceTokens (s : String) : List String :=
  (splitSep ' ' s.data).map String.mk

/-- `spaceTokens` never yields an empty token list. -/
theorem spaceTokens_ne_nil (s : String) : spaceTokens s ≠ [] := by
  unfold spaceTokens
  intro h
  exact splitSep_ne_nil ' ' s.data (List.map_eq_nil_iff.mp h)

/-- `fn not_using_dotenv() -> bool` from `main.rs` (lines 116–132), as a
function of the `DISABLE_NO_DOTENV_WARNING` environment value.  A `panic!`
is modelled as `Except.error` carrying the panic message. -/
def not_using_dotenv (v : EnvVal) : Except String Bool :=
  match v with
  | EnvVal.val x =>
    let low := to_ascii_lowercase x
    if low = "1" ∨ low = "true" then Except.ok true
    else if low = "0" ∨ low = "false" then Except.ok false
    else Except.error
      "DISABLE_NO_DOTENV_WARNING environment variable is not a valid value (1/0/true/false)"
  | EnvVal.absent => Except.ok false
  | EnvVal.notUnicode => Except.error
      "DISABLE_NO_DOTENV_WARNING environment variable is not set to valid Unicode"

/-- `fn parse_prefixes() -> (Option<String>, Vec<Prefix>)` from `main.rs`
(lines 134–154), as a function of the `PREFIXES` environment value.
A `panic!`/`expect` failure is modelled as `Except.error` carrying the
message; the `Box::leak` is a Rust memory-management detail with no
observable effect and is omitted. -/
def parse_prefixes (v : EnvVal) : Except String (Option String × List PrefixLit) :=
  match v with
  | EnvVal.absent => Except.ok (none, [])
  | EnvVal.notUnicode => Except.error "Could not handle the environment variable for prefixes"
  | EnvVal.val unparsed =>
    match spaceTokens unparsed with
    | [] => Except.error "Could not parse prefixes from environment variables"
    | first :: rest => Except.ok (some first, rest.map PrefixLit.Literal)

/-- The outcome of one command invocation: the `Result<(), Error>` the
command returns, the messages it successfully sent as replies, and the
shared `Data` state as the command leaves it. -/
structure CommandOutcome (ε : Type) where
  result : Except ε Unit
  messagesSent : List String
  dataAfter : Data

/-- `pub async fn pong(ctx: Context<'_>) -> Result<(), Error>` from
`commands/ping.rs`: calls `ctx.say("pong!")` once and propagates its error
with `?`, otherwise returns `Ok(())`.  The reply-send effect `say` is an
explicit input; `ctx_data` is the shared `Data` the context hands the
command by reference (the function body never touches it). -/
def pong (ε : Type) (ctx_data : Data) (say : String → Except ε Unit) :
    CommandOutcome ε :=
  match say "pong!" with
  | Except.ok _ =>
    { result := Except.ok (), messagesSent := ["pong!"], dataAfter := ctx_data }
  | Except.error e =>
    { result := Except.error e, messagesSent := [], dataAfter := ctx_data }

/-- Modelled from the spec: `src/commands/help.rs` is declared by
`commands.rs` but its source is not present under `src/`.  The spec says
the help command "delegates entirely to the external framework's built-in
help-text generator", so it is modelled as a single call into the
framework builtin (an explicit input) that never touches the shared
`Data`. -/
def help (ε : Type) (ctx_data : Data) (builtin_help : Except ε Unit) :
    CommandOutcome ε :=
  match builtin_help with
  | Except.ok _ =>
    { result := Except.ok (), messagesSent := [], dataAfter := ctx_data }
  | Except.error e =>
    { result := Except.error e, messagesSent := [], dataAfter := ctx_data }

/-- The result of the `dotenv()` call in `main`, mirroring
`Result<PathBuf, dotenvy::Error>` as `main` inspects it: success, the
`.env` file not found, or any other error. -/
inductive DotenvResult where
  | found
  | notFound
  | otherError (msg : String)
deriving DecidableEq

/-- The external world as `main` observes it: the process environment
(after `dotenv` has loaded any `.env` file), the outcome of the `dotenv`
call itself, the outcome of connecting a `PgPool` to a given database url,
and the outcome of building the framework. -/
structure World where
  env : Env
  dotenvResult : DotenvResult
  connectOutcome : String → Except String PgPool
  buildOutcome : Except String Unit

/-- What `main` did to the outside world before finishing or panicking:
which database urls it attempted to connect to, and whether the framework
was built and started. -/
structure StartupTrace where
  dbConnectAttempts : List String
  frameworkStarted : Bool
deriving DecidableEq

/-- How `main` ends: a `panic!`/`expect` aborts the process with a message,
or startup completes and the bot runs with the parsed prefix
configuration and the shared `Data`. -/
inductive MainOutcome where
  | panicked (msg : String)
  | running (primary : Option String) (additional : List PrefixLit) (data : Data)

/-- The `dotenv()` handling at the top of `main` (lines 41–49): `Ok` is
ignored, a not-found error consults `not_using_dotenv` (whose own panic
propagates; the warning itself has no further effect), and any other
error panics with `"Dotenv error: ..."`. -/
def dotenv_step (w : World) : Except String Unit :=
  match w.dotenvResult with
  | DotenvResult.found => Except.ok ()
  | DotenvResult.notFound =>
    match not_using_dotenv (w.env "DISABLE_NO_DOTENV_WARNING") with
    | Except.ok _ => Except.ok ()
    | Except.error m => Except.error m
  | DotenvResult.otherError msg => Except.error ("Dotenv error: " ++ msg)

/-- `env::var(name).expect(msg)`: yields the value when the variable is
present Unicode, and panics with `msg` on any `VarError`. -/
def env_var_expect (w : World) (name msg : String) : Except String String :=
  match w.env name with
  | EnvVal.val s => Except.ok s
  | _ => Except.error msg

/-- The startup sequence of `fn main()` from `main.rs` (lines 28–113), with
panics as `MainOutcome.panicked`: dotenv handling, then reading
`DISCORD_TOKEN` and `DATABASE_URL` (each `expect`ed), then
`parse_prefixes`, then connecting the database pool, then building the
framework, then starting it.  The trace records the connection attempts
and whether startup completed. -/
def run_main (w : World) : MainOutcome × StartupTrace :=
  match dotenv_step w with
  | Except.error m => (MainOutcome.panicked m, ⟨[], false⟩)
  | Except.ok _ =>
  match env_var_expect w "DISCORD_TOKEN" "No discord token found in environment variables" with
  | Except.error m => (MainOutcome.panicked m, ⟨[], false⟩)
  | Except.ok _token =>
  match env_var_expect w "DATABASE_URL" "No database url found in environment variables" with
  | Except.error m => (MainOutcome.panicked m, ⟨[], false⟩)
  | Except.ok database_url =>
  match parse_prefixes (w.env "PREFIXES") with
  | Except.error m => (MainOutcome.panicked m, ⟨[], false⟩)
  | Except.ok (primary, additional) =>
  match w.connectOutcome database_url with
  | Except.error _ =>
    (MainOutcome.panicked "Failed to connect to database", ⟨[database_url], false⟩)
  | Except.ok db =>
  match w.buildOutcome with
  | Except.error _ =>
    (MainOutcome.panicked "Cannot build the bot framework!", ⟨[database_url], false⟩)
  | Except.ok _ =>
    (MainOutcome.running primary additional ⟨db⟩, ⟨[database_url], true⟩)

/-- The observable actions of the background shutdown task spawned by
`main` (lines 102–110). -/
inductive ShutdownEvent where
  | frameworkShutdownAll
  | poolClosed
deriving DecidableEq

/-- The background shutdown task: it awaits `tokio::signal::ctrl_c()`
(whose registration failure is an `expect` panic), and on signal receipt
performs, in order, `shard_handler.lock().await.shutdown_all().await` and
then `db.close().await`.  The returned list is the ordered sequence of
those actions. -/
def shutdown_task (ctrl_c : Except String Unit) :
    Except String (List ShutdownEvent) :=
  match ctrl_c with
  | Except.error _ => Except.error "Cannot register a ctrl+c handler!"
  | Except.ok _ =>
    Except.ok [ShutdownEvent.frameworkShutdownAll, ShutdownEvent.poolClosed]

/-! Helper equation lemmas. -/

/-- `parse_prefixes` on a present value, given the token decomposition. -/
theorem parse_prefixes_val_eq (v first : String) (rest : List String)
    (h : spaceTokens v = first :: rest) :
    parse_prefixes (EnvVal.val v) = Except.ok (some first, rest.map PrefixLit.Literal) := by
  show (match spaceTokens v with
    | [] => Except.error "Could not parse prefixes from environment variables"
    | first :: rest => Except.ok (some first, rest.map PrefixLit.Literal))
    = Except.ok (some first, rest.map PrefixLit.Literal)
  rw [h]

/-- `not_using_dotenv` on a present value, written with the lowercased
string explicit. -/
theorem not_using_dotenv_val (s : String) :
    not_using_dotenv (EnvVal.val s) =
      (if to_ascii_lowercase s = "1" ∨ to_ascii_lowercase s = "true" then Except.ok true
       else if to_ascii_lowercase s = "0" ∨ to_ascii_lowercase s = "false" then Except.ok false
       else Except.error
         "DISABLE_NO_DOTENV_WARNING environment variable is not a valid value (1/0/true/false)") :=
  rfl

/-- `env::var(name).expect(msg)` panics when the variable is absent. -/
theorem env_var_expect_absent (w : World) (name msg : String)
    (h : w.env name = EnvVal.absent) :
    env_var_expect w name msg = Except.error msg := by
  unfold env_var_expect
  rw [h]

/-- `run_main` when the dotenv handling panics. -/
theorem run_main_dotenv_error (w : World) (m : String)
    (h : dotenv_step w = Except.error m) :
    run_main w = (MainOutcome.panicked m, ⟨[], false⟩) := by
  unfold run_main
  rw [h]

/-- `run_main` when the `DISCORD_TOKEN` lookup panics. -/
theorem run_main_token_error (w : World) (u : Unit) (m : String)
    (h1 : dotenv_step w = Except.ok u)
    (h2 : env_var_expect w "DISCORD_TOKEN" "No discord token found in environment variables"
      = Except.error m) :
    run_main w = (MainOutcome.panicked m, ⟨[], false⟩) := by
  unfold run_main
  rw [h1, h2]

/-- `run_main` when the `DATABASE_URL` lookup panics. -/
theorem run_main_dburl_error (w : World) (u : Unit) (tok m : String)
    (h1 : dotenv_step w = Except.ok u)
    (h2 : env_var_expect w "DISCORD_TOKEN" "No discord token found in environment variables"
      = Except.ok tok)
    (h3 : env_var_expect w "DATABASE_URL" "No database url found in environment variables"
      = Except.error m) :
    run_main w = (MainOutcome.panicked m, ⟨[], false⟩) := by
  unfold run_main
  rw [h1, h2, h3]

/-- `run_main` when `parse_prefixes` panics. -/
theorem run_main_prefixes_error (w : World) (u : Unit) (tok url m : String)
    (h1 : dotenv_step w = Except.ok u)
    (h2 : env_var_expect w "DISCORD_TOKEN" "No discord token found in environment variables"
      = Except.ok tok)
    (h3 : env_var_expect w "DATABASE_URL" "No database url found in environment variables"
      = Except.ok url)
    (h4 : parse_prefixes (w.env "PREFIXES") = Except.error m) :
    run_main w = (MainOutcome.panicked m, ⟨[], false⟩) := by
  unfold run_main
  rw [h1, h2, h3, h4]

/-- A world in which every environment variable is absent: used to exhibit
the missing-required-variable startup failure on a concrete input. -/
def absentWorld : World where
  env := fun _ => EnvVal.absent
  dotenvResult := DotenvResult.found
  connectOutcome := fun _ => Except.error "no database"
  buildOutcome := Except.ok ()

/-- A world in which every environment variable is present but not valid
Unicode: used to exhibit the unparseable-prefix startup failure on a
concrete input. -/
def notUnicodeWorld : World where
  env := fun _ => EnvVal.notUnicode
  dotenvResult := DotenvResult.found
  connectOutcome := fun _ => Except.ok ⟨true, 0⟩
  buildOutcome := Except.ok ()

/-! Claim theorems. -/

/-- Claim C1: for every present `PREFIXES` value, `parse_prefixes` splits it
on single space characters (re-joining the tokens with a single space
recovers the value, and no token contains a space) and returns the first
token as the primary prefix (`some`) and the remaining tokens, in their
original order, as the list of additional literal prefixes. -/
theorem parse_prefixes_splits (v first : String) (rest : List String)
    (h : spaceTokens v = first :: rest) :
    parse_prefixes (EnvVal.val v) = Except.ok (some first, rest.map PrefixLit.Literal) ∧
    List.intercalate [' '] ((first :: rest).map String.data) = v.data ∧
    ∀ t ∈ first :: rest, ' ' ∉ t.data := by
  have hdata : (first :: rest).map String.data = splitSep ' ' v.data := by
    have h2 : (spaceTokens v).map String.data = (first :: rest).map String.data := by rw [h]
    rw [← h2]
    unfold spaceTokens
    rw [List.map_map]
    have hcomp : String.data ∘ String.mk = id := rfl
    rw [hcomp, List.map_id]
  refine ⟨parse_prefixes_val_eq v first rest h, ?_, ?_⟩
  · rw [hdata]
    exact splitSep_intercalate ' ' v.data
  · intro t ht
    have hm : t.data ∈ splitSep ' ' v.data := by
      rw [← hdata]
      exact List.mem_map_of_mem String.data ht
    exact splitSep_not_mem ' ' v.data t.data hm

/-- Witness for C1: on the concrete value `"! ?"` the primary prefix is
`"!"` and the single additional literal prefix is `"?"`. -/
theorem parse_prefixes_splits_witness :
    parse_prefixes (EnvVal.val "! ?") = Except.ok (some "!", [PrefixLit.Literal "?"]) ∧
    List.intercalate [' '] (["!", "?"].map String.data) = "! ?".data ∧
    ∀ t ∈ ["!", "?"], ' ' ∉ t.data :=
  parse_prefixes_splits "! ?" "!" ["?"] rfl

/-- Claim C2: whenever the reply-send call for `"pong!"` succeeds, the
`pong` command returns success and the one message it sent is exactly the
fixed literal `"pong!"`. -/
theorem pong_success (ε : Type) (d : Data) (say : String → Except ε Unit)
    (h : say "pong!" = Except.ok ()) :
    (pong ε d say).result = Except.ok () ∧
    (pong ε d say).messagesSent = ["pong!"] := by
  unfold pong
  rw [h]
  exact ⟨rfl, rfl⟩

/-- Witness for C2: a concrete always-succeeding reply-send. -/
theorem pong_success_witness :
    (pong String ⟨⟨true, 0⟩⟩ (fun _ => Except.ok ())).result = Except.ok () ∧
    (pong String ⟨⟨true, 0⟩⟩ (fun _ => Except.ok ())).messagesSent = ["pong!"] :=
  pong_success String ⟨⟨true, 0⟩⟩ (fun _ => Except.ok ()) rfl

/-- Claim C3: when the `PREFIXES` environment variable is absent,
`parse_prefixes` returns no primary prefix and an empty list of additional
prefixes. -/
theorem parse_prefixes_absent_default :
    parse_prefixes EnvVal.absent = Except.ok (none, []) := rfl

/-- Claim C4: `not_using_dotenv` returns `true` exactly for present values
whose ASCII-lowercasing is `"1"` or `"true"`, returns `false` exactly for
those lowercasing to `"0"` or `"false"` and for an absent variable, and
panics on every other present Unicode value. -/
theorem not_using_dotenv_spec :
    (∀ s : String,
      (not_using_dotenv (EnvVal.val s) = Except.ok true ↔
        to_ascii_lowercase s = "1" ∨ to_ascii_lowercase s = "true") ∧
      (not_using_dotenv (EnvVal.val s) = Except.ok false ↔
        to_ascii_lowercase s = "0" ∨ to_ascii_lowercase s = "false") ∧
      ((∃ m, not_using_dotenv (EnvVal.val s) = Except.error m) ↔
        ¬(to_ascii_lowercase s = "1" ∨ to_ascii_lowercase s = "true") ∧
        ¬(to_ascii_lowercase s = "0" ∨ to_ascii_lowercase s = "false"))) ∧
    not_using_dotenv EnvVal.absent = Except.ok false := by
  refine ⟨fun s => ?_, rfl⟩
  simp only [not_using_dotenv_val]
  generalize to_ascii_lowercase s = low
  by_cases h1 : low = "1" ∨ low = "true"
  · rw [if_pos h1]
    rcases h1 with rfl | rfl
    · exact ⟨by simp, by simp, by simp⟩
    · exact ⟨by simp, by simp, by simp⟩
  · rw [if_neg h1]
    by_cases h0 : low = "0" ∨ low = "false"
    · rw [if_pos h0]
      rcases h0 with rfl | rfl
      · exact ⟨by simp, by simp, by simp⟩
      · exact ⟨by simp, by simp, by simp⟩
    · rw [if_neg h0]
      exact ⟨by simp [h1], by simp [h0], by simp [h1, h0]⟩

/-- Claim C5: when the `PREFIXES` environment value is present but
unparseable (not valid Unicode), startup panics: `run_main` ends in
`panicked`, never attempts a database connection and never starts the
framework. -/
theorem unparseable_prefixes_fatal (w : World)
    (h : w.env "PREFIXES" = EnvVal.notUnicode) :
    (∃ msg, (run_main w).1 = MainOutcome.panicked msg) ∧
    (run_main w).2.dbConnectAttempts = [] ∧
    (run_main w).2.frameworkStarted = false := by
  have hp : parse_prefixes (w.env "PREFIXES")
      = Except.error "Could not handle the environment variable for prefixes" := by
    rw [h]
    rfl
  cases hd : dotenv_step w with
  | error m =>
    rw [run_main_dotenv_error w m hd]
    exact ⟨⟨m, rfl⟩, rfl, rfl⟩
  | ok u =>
    cases ht : env_var_expect w "DISCORD_TOKEN"
        "No discord token found in environment variables" with
    | error m =>
      rw [run_main_token_error w u m hd ht]
      exact ⟨⟨m, rfl⟩, rfl, rfl⟩
    | ok tok =>
      cases hu : env_var_expect w "DATABASE_URL"
          "No database url found in environment variables" with
      | error m =>
        rw [run_main_dburl_error w u tok m hd ht hu]
        exact ⟨⟨m, rfl⟩, rfl, rfl⟩
      | ok url =>
        rw [run_main_prefixes_error w u tok url _ hd ht hu hp]
        exact ⟨⟨_, rfl⟩, rfl, rfl⟩

/-- Witness for C5: a concrete world whose `PREFIXES` value is not valid
Unicode. -/
theorem unparseable_prefixes_fatal_witness :
    (∃ msg, (run_main notUnicodeWorld).1 = MainOutcome.panicked msg) ∧
    (run_main notUnicodeWorld).2.dbConnectAttempts = [] ∧
    (run_main notUnicodeWorld).2.frameworkStarted = false :=
  unparseable_prefixes_fatal notUnicodeWorld rfl

/-- Claim C6: if `DISCORD_TOKEN` or `DATABASE_URL` is missing from the
environment, startup panics before connecting to anything: `run_main` ends
in `panicked`, with no database connection attempt and no framework
start. -/
theorem missing_required_env_fatal (w : World)
    (h : w.env "DISCORD_TOKEN" = EnvVal.absent ∨ w.env "DATABASE_URL" = EnvVal.absent) :
    (∃ msg, (run_main w).1 = MainOutcome.panicked msg) ∧
    (run_main w).2.dbConnectAttempts = [] ∧
    (run_main w).2.frameworkStarted = false := by
  cases hd : dotenv_step w with
  | error m =>
    rw [run_main_dotenv_error w m hd]
    exact ⟨⟨m, rfl⟩, rfl, rfl⟩
  | ok u =>
    cases ht : env_var_expect w "DISCORD_TOKEN"
        "No discord token found in environment variables" with
    | error m =>
      rw [run_main_token_error w u m hd ht]
      exact ⟨⟨m, rfl⟩, rfl, rfl⟩
    | ok tok =>
      have hdb : w.env "DATABASE_URL" = EnvVal.absent := by
        rcases h with h | h
        · rw [env_var_expect_absent w _ _ h] at ht
          exact absurd ht (by simp)
        · exact h
      rw [run_main_dburl_error w u tok _ hd ht (env_var_expect_absent w _ _ hdb)]
      exact ⟨⟨_, rfl⟩, rfl, rfl⟩

/-- Witness for C6: the concrete world with an entirely empty
environment. -/
theorem missing_required_env_fatal_witness :
    (∃ msg, (run_main absentWorld).1 = MainOutcome.panicked msg) ∧
    (run_main absentWorld).2.dbConnectAttempts = [] ∧
    (run_main absentWorld).2.frameworkStarted = false :=
  missing_required_env_fatal absentWorld (Or.inl rfl)

/-- Claim C7: whenever the reply-send call for `"pong!"` fails with error
`e`, the `pong` command returns exactly that error `e`, unchanged. -/
theorem pong_propagates_error (ε : Type) (d : Data) (say : String → Except ε Unit)
    (e : ε) (h : say "pong!" = Except.error e) :
    (pong ε d say).result = Except.error e := by
  unfold pong
  rw [h]

/-- Witness for C7: a concrete failing reply-send whose error string comes
back verbatim. -/
theorem pong_propagates_error_witness :
    (pong String ⟨⟨true, 0⟩⟩ (fun _ => Except.error "reply failed")).result
      = Except.error "reply failed" :=
  pong_propagates_error String ⟨⟨true, 0⟩⟩ (fun _ => Except.error "reply failed")
    "reply failed" rfl

/-- Claim C8: on receipt of the interrupt signal, the background shutdown
task performs exactly the sequence framework-shutdown then pool-close: the
pool is closed exactly once, and never before the framework shutdown is
triggered. -/
theorem shutdown_task_sequence :
    shutdown_task (Except.ok ())
      = Except.ok [ShutdownEvent.frameworkShutdownAll, ShutdownEvent.poolClosed] ∧
    [ShutdownEvent.frameworkShutdownAll, ShutdownEvent.poolClosed].count
      ShutdownEvent.poolClosed = 1 ∧
    [ShutdownEvent.frameworkShutdownAll, ShutdownEvent.poolClosed].indexOf
        ShutdownEvent.frameworkShutdownAll
      < [ShutdownEvent.frameworkShutdownAll, ShutdownEvent.poolClosed].indexOf
        ShutdownEvent.poolClosed := by
  refine ⟨rfl, ?_, ?_⟩ <;> decide

/-- Claim C9: neither command registered by the repository touches the
shared `Data`: both `pong` and `help` leave the record, its pool, and the
pool's executed-query count exactly as they found them, for every outcome
of their external calls. -/
theorem commands_preserve_data (ε : Type) (d : Data) (say : String → Except ε Unit)
    (builtin_help : Except ε Unit) :
    (pong ε d say).dataAfter = d ∧
    (pong ε d say).dataAfter.db.queriesExecuted = d.db.queriesExecuted ∧
    (pong ε d say).dataAfter.db.isOpen = d.db.isOpen ∧
    (help ε d builtin_help).dataAfter = d ∧
    (help ε d builtin_help).dataAfter.db.queriesExecuted = d.db.queriesExecuted := by
  unfold pong help
  cases say "pong!" <;> cases builtin_help <;> exact ⟨rfl, rfl, rfl, rfl, rfl⟩

/-- Claim C10: `parse_prefixes` succeeds on every present Unicode value:
the space-split always yields at least one token, so the failure branch is
unreachable, and the empty value yields `some ""` with no additional
prefixes. -/
theorem parse_prefixes_never_fails :
    (∀ v : String, ∃ first rest, spaceTokens v = first :: rest ∧
      parse_prefixes (EnvVal.val v)
        = Except.ok (some first, List.map PrefixLit.Literal rest)) ∧
    parse_prefixes (EnvVal.val "") = Except.ok (some "", []) := by
  constructor
  · intro v
    cases h : spaceTokens v with
    | nil => exact absurd h (spaceTokens_ne_nil v)
    | cons first rest => exact ⟨first, rest, rfl, parse_prefixes_val_eq v first rest h⟩
  · rfl

end BotTemplate
